import Mathlib

/-!
Verification development for the `lithdat` world-file decoder.

The repository is a Go program (`src/unnamed/part_000`, with a reduced
variant `src/lithdat.go`) that decodes a binary game-world file.  We give a
shallow embedding of the decoder:

* the byte source is a `List Nat` (one entry per byte, little-endian
  multi-byte values are assembled positionally);
* the file position is a `Nat`;
* every `binary.Read` call in the source discards its error (`_ =`), so the
  embedded primitive reads are total: on a short read the destination keeps
  its zero value and the position advances over whatever bytes remained
  (this is exactly `io.ReadFull` semantics: it consumes the available bytes
  before reporting a short read, and `binary.Read` leaves the destination
  untouched when `io.ReadFull` fails);
* `os.File.Seek(off, io.SeekStart)` with a non-negative offset always
  succeeds, even past end of file, so the embedded seek is total as well and
  the `err != nil` branches of the source are dead code;
* `float32` fields never participate in arithmetic during decoding (bytes
  are only copied), so each `float32` is represented by the `Nat` value of
  its 4-byte little-endian bit pattern;
* every `fmt.Println` / `fmt.Printf` executed while parsing is recorded as
  one event in an output trace.
-/

/-- Little-endian value of a byte list: first byte is least significant. -/
def leVal : List Nat → Nat
  | [] => 0
  | b :: bs => b + 256 * leVal bs

/-- Raw read of `n` bytes at `pos`, the embedding of one `io.ReadFull` call
on the underlying file.  If `n` bytes are available they are returned and
the position advances by `n`.  Otherwise the read fails: the remaining
bytes (if any) are consumed, so the new position is the end of the source
when `pos` was inside it, and `pos` itself when `pos` was already past the
end. -/
def readRaw (src : List Nat) (pos n : Nat) : Option (List Nat) × Nat :=
  if pos + n ≤ src.length then
    (some ((src.drop pos).take n), pos + n)
  else
    (none, max pos (min src.length (pos + n)))

/-- Embedding of `binary.Read` into an `n`-byte unsigned little-endian
integer with the error discarded: on failure the freshly zero-initialised
destination keeps the value `0`. -/
def readUInt (src : List Nat) (pos n : Nat) : Nat × Nat :=
  (leVal (((readRaw src pos n).1).getD []), (readRaw src pos n).2)

/-- Four bytes of a buffer starting at index `i`, as a little-endian value.
Used to split a fixed-size struct read into its `float32`-pattern fields. -/
def leField (bs : List Nat) (i : Nat) : Nat :=
  leVal ((bs.drop i).take 4)

structure VEC2 where
  x : Nat
  y : Nat
deriving Inhabited, DecidableEq

structure VEC3 where
  x : Nat
  y : Nat
  z : Nat
deriving Inhabited, DecidableEq

structure COLOR where
  r : Nat
  g : Nat
  b : Nat
deriving Inhabited, DecidableEq

structure QUATERNION where
  x : Nat
  y : Nat
  z : Nat
  w : Nat
deriving Inhabited, DecidableEq

structure SURFACE where
  flags : Nat
  textureIndex : Nat
  textureFlags : Nat
deriving Inhabited, DecidableEq

structure TRIANGLE where
  t : Nat × Nat × Nat
  polyIndex : Nat
deriving Inhabited, DecidableEq

structure PLANE where
  normal : VEC3
  dist : Nat
deriving Inhabited, DecidableEq

structure VERTEX where
  vPos : VEC3
  uv0 : VEC2
  uv1 : VEC2
  color : Int
  vNormal : VEC3
  vTangent : VEC3
  vBinormal : VEC3
deriving Inhabited, DecidableEq

structure POLYGON where
  plane : PLANE
  vertLen : Nat
  vertPos : List VEC3
deriving Inhabited, DecidableEq

structure WMPOLYGON where
  surfaceIndex : Nat
  planeIndex : Nat
  verticesIndicies : List Nat
deriving Inhabited, DecidableEq

structure WMNODE where
  polyIndex : Nat
  zero : Nat
  nodeSidesIndicies : Int × Int
deriving Inhabited, DecidableEq

structure WORLDMODEL where
  dummy : Nat
  worldInfoFlags : Nat
  worldName : List Nat
  pointsLen : Nat
  planesLen : Nat
  surfacesLen : Nat
  portals : Nat
  poliesLen : Nat
  leavesLen : Nat
  poliesVerticesLen : Nat
  visibleListLen : Nat
  leafList : Nat
  nodesLen : Nat
  worldBBoxMin : VEC3
  worldBBoxMax : VEC3
  worldTranslation : VEC3
  textureNamesSize : Nat
  textureNamesLen : Nat
  textureNames : List (List Nat)
  verticesLen : List Nat
  planes : List PLANE
  surfaces : List SURFACE
  polies : List WMPOLYGON
  nodes : List WMNODE
  points : List VEC3
  rootNodeIndex : Int
  sections : Nat
deriving Inhabited, DecidableEq

structure WORLDTREE where
  rootBBoxMin : VEC3
  rootBBoxMax : VEC3
  subNodesLen : Nat
  terrainDepth : Nat
  worldLayout : List Nat
  worldModelsLen : Nat
  worldModels : List WORLDMODEL
deriving Inhabited, DecidableEq

structure PROPERTY where
  name : List Nat
  dataTypeFlag : Nat
  propertyFlags : Nat
  dataSize : Nat
  dataString : List Nat
  dataVEC3 : VEC3
  dataCOLOR : COLOR
  dataFloat : Nat
  dataBool : Bool
  dataUint32 : Nat
  dataQuaternion : QUATERNION
  data : List Nat
deriving Inhabited, DecidableEq

structure WORLDOBJECT where
  objectSize : Nat
  objectType : List Nat
  propertiesLen : Nat
  properties : List PROPERTY
deriving Inhabited, DecidableEq

structure LIGHTGRID where
  lookupStart : VEC3
  blockSize : VEC3
  lookupSize : Nat × Nat × Nat
  lgDataLen : Nat
  lgData : List Nat
deriving Inhabited, DecidableEq

structure VERTICESPOS where
  len : Nat
  data : List VEC3
deriving Inhabited, DecidableEq

structure SKYPORTAL where
  verticesPos : VERTICESPOS
  plane : PLANE
deriving Inhabited, DecidableEq

structure OCCLUDER where
  verticesPos : VERTICESPOS
  plane : PLANE
  other : Nat
deriving Inhabited, DecidableEq

structure SECTION where
  textureName : List (List Nat)
  shaderCode : Nat
  triangleCount : Nat
  textureEffect : List Nat
  lightMapWidth : Nat
  lightMapHeight : Nat
  lightMapSize : Nat
  lightMapData : List Nat
deriving Inhabited, DecidableEq

structure SUBLM where
  left : Nat
  top : Nat
  width : Nat
  height : Nat
  dataLen : Nat
  data : List Nat
deriving Inhabited, DecidableEq

structure SECTIONLM where
  subLMLen : Nat
  sublm : List SUBLM
deriving Inhabited, DecidableEq

structure LIGHTGROUP where
  name : List Nat
  vColor : VEC3
  nIntensitySize : Nat
  zeroCompressedIntensityData : List Nat
  sectionLMLen : Nat
  sectionLM : List SECTIONLM
deriving Inhabited, DecidableEq

structure RENDERNODE where
  vCenter : VEC3
  vHalfDims : VEC3
  sectionLen : Nat
  sections : List SECTION
  vericesLen : Nat
  vertices : List VERTEX
  trianglesLen : Nat
  triangles : List TRIANGLE
  skyPortalLen : Nat
  skyportals : List SKYPORTAL
  occluderLen : Nat
  occluders : List OCCLUDER
  lightGroupLen : Nat
  lightGroups : List LIGHTGROUP
  childFlags : Nat
  childNodeIndicies : Nat × Nat
deriving Inhabited, DecidableEq

structure WMRENDERNODE where
  name : List Nat
  nodesLen : Nat
  nodes : List RENDERNODE
  noChildFlag : Nat
deriving Inhabited, DecidableEq

structure WORLDLIGHTGROUP where
  name : List Nat
  color : VEC3
  vOffset : VEC3
  vSize : VEC3
  data : List Nat
deriving Inhabited, DecidableEq

structure RENDERDATA where
  renderTreeNodesLen : Nat
  renderNodes : List RENDERNODE
  worldModelNodesLen : Nat
  worldModelRenderNotes : List WMRENDERNODE
  lightGroupsLen : Nat
  lightGroups : List WORLDLIGHTGROUP
deriving Inhabited, DecidableEq

structure HEADER where
  version : Nat
  objectDataPos : Nat
  blindObjectDataPos : Nat
  lightgridPos : Nat
  collisionDataPos : Nat
  particleBlockerDataPos : Nat
  renderDataPos : Nat
  packerType : Nat
  packerVersion : Nat
  future : Nat × Nat × Nat × Nat × Nat × Nat
deriving Inhabited, DecidableEq

structure BLINDOBJECTDATA where
  len : Nat
  dataID : Nat
  data : List Nat
deriving Inhabited, DecidableEq

structure WORLD where
  worldInfoStrLen : Nat
  worldInfoStr : List Nat
  worldExtentsMin : VEC3
  worldExtentsMax : VEC3
  worldOffset : VEC3
  worldTree : WORLDTREE
  worldObjectsLen : Nat
  worldObjects : List WORLDOBJECT
  blindObjectDataSize : Nat
  blindObjectsData : List BLINDOBJECTDATA
  lightGrid : LIGHTGRID
  physicsDataLen : Nat
  polies : List POLYGON
  zero : Nat
  particleBlockerDataLen : Nat
  particleBlockers : List POLYGON
  zero2 : Nat
  renderData : RENDERDATA
deriving Inhabited, DecidableEq

/-- Embedding of `readLithSTRING` (`src/unnamed/part_000`, lines 305-311):
read a `u16` length, allocate a zero-filled buffer of that length, read that
many bytes into it (error discarded, so on a short read the buffer stays
zero-filled), and return the buffer as the string's bytes. -/
def readLithSTRING (src : List Nat) (pos : Nat) : List Nat × Nat :=
  let rSize := readUInt src pos 2
  let rBuf := readRaw src rSize.2 rSize.1
  (rBuf.1.getD (List.replicate rSize.1 0), rBuf.2)

/-- Embedding of one `binary.Read` into a Go `bool`: one byte, nonzero means
`true`; on a short read the destination keeps `false`. -/
def readGoBool (src : List Nat) (pos : Nat) : Bool × Nat :=
  let r := readRaw src pos 1
  (decide (leVal (r.1.getD []) ≠ 0), r.2)

/-- Embedding of one `binary.Read` into a `VEC3` (three `float32`, 12 bytes,
all-or-nothing; on a short read the destination keeps its zero value). -/
def readVEC3 (src : List Nat) (pos : Nat) : VEC3 × Nat :=
  let r := readRaw src pos 12
  let bs := r.1.getD (List.replicate 12 0)
  ({ x := leField bs 0, y := leField bs 4, z := leField bs 8 }, r.2)

/-- Embedding of one `binary.Read` into a `COLOR` (12 bytes). -/
def readCOLOR (src : List Nat) (pos : Nat) : COLOR × Nat :=
  let r := readRaw src pos 12
  let bs := r.1.getD (List.replicate 12 0)
  ({ r := leField bs 0, g := leField bs 4, b := leField bs 8 }, r.2)

/-- Embedding of one `binary.Read` into a `QUATERNION` (16 bytes). -/
def readQUATERNION (src : List Nat) (pos : Nat) : QUATERNION × Nat :=
  let r := readRaw src pos 16
  let bs := r.1.getD (List.replicate 16 0)
  ({ x := leField bs 0, y := leField bs 4, z := leField bs 8,
     w := leField bs 12 }, r.2)

/-- Embedding of the property-decoding loop body of `main`
(`src/unnamed/part_000`, lines 359-379): read `Name`, `DataTypeFlag`,
`PropertyFlags`, `DataSize`, then branch on the flag exactly as the Go
`switch` does (a value outside the listed cases reads no payload at all;
there is no `default` arm in the source). -/
def decodePROPERTY (src : List Nat) (pos : Nat) : PROPERTY × Nat :=
  let rName := readLithSTRING src pos
  let rTag := readUInt src rName.2 1
  let rFlags := readUInt src rTag.2 4
  let rSize := readUInt src rFlags.2 2
  let base : PROPERTY :=
    { (default : PROPERTY) with
        name := rName.1, dataTypeFlag := rTag.1,
        propertyFlags := rFlags.1, dataSize := rSize.1 }
  if rTag.1 = 0 then
    let rs := readLithSTRING src rSize.2
    ({ base with dataString := rs.1 }, rs.2)
  else if rTag.1 = 1 then
    let rv := readVEC3 src rSize.2
    ({ base with dataVEC3 := rv.1 }, rv.2)
  else if rTag.1 = 2 then
    let rc := readCOLOR src rSize.2
    ({ base with dataCOLOR := rc.1 }, rc.2)
  else if rTag.1 = 3 then
    let rf := readUInt src rSize.2 4
    ({ base with dataFloat := rf.1 }, rf.2)
  else if rTag.1 = 5 then
    let rb := readGoBool src rSize.2
    ({ base with dataBool := rb.1 }, rb.2)
  else if rTag.1 = 6 then
    let ru := readUInt src rSize.2 4
    ({ base with dataUint32 := ru.1 }, ru.2)
  else if rTag.1 = 7 then
    let rq := readQUATERNION src rSize.2
    ({ base with dataQuaternion := rq.1 }, rq.2)
  else
    (base, rSize.2)

/-- The `for range worldObject.PropertiesLen` loop of `main`: decode `n`
properties in sequence, appending in file order. -/
def decodePROPERTIES (src : List Nat) (pos n : Nat) : List PROPERTY × Nat :=
  match n with
  | 0 => ([], pos)
  | Nat.succ m =>
    let r := decodePROPERTY src pos
    let rs := decodePROPERTIES src r.2 m
    (r.1 :: rs.1, rs.2)

/-- Embedding of the world-object loop body of `main`
(`src/unnamed/part_000`, lines 353-383): `ObjectSize`, `ObjectType`,
`PropertiesLen`, then that many properties. -/
def decodeWORLDOBJECT (src : List Nat) (pos : Nat) : WORLDOBJECT × Nat :=
  let rSize := readUInt src pos 2
  let rType := readLithSTRING src rSize.2
  let rLen := readUInt src rType.2 4
  let rProps := decodePROPERTIES src rLen.2 rLen.1
  ({ objectSize := rSize.1, objectType := rType.1,
     propertiesLen := rLen.1, properties := rProps.1 }, rProps.2)

/-- The `for range world.WorldObjectsLen` loop of `main`: decode `n` world
objects in sequence, appending in file order. -/
def decodeWORLDOBJECTS (src : List Nat) (pos n : Nat) : List WORLDOBJECT × Nat :=
  match n with
  | 0 => ([], pos)
  | Nat.succ m =>
    let r := decodeWORLDOBJECT src pos
    let rs := decodeWORLDOBJECTS src r.2 m
    (r.1 :: rs.1, rs.2)

/-- Embedding of the header-decoding block of `main`
(`src/unnamed/part_000`, lines 323-338; identically `src/lithdat.go`,
lines 312-327): fifteen consecutive `binary.Read` calls, each reading one
little-endian `u32`. -/
def decodeHEADER (src : List Nat) (pos : Nat) : HEADER × Nat :=
  let r0 := readUInt src pos 4
  let r1 := readUInt src r0.2 4
  let r2 := readUInt src r1.2 4
  let r3 := readUInt src r2.2 4
  let r4 := readUInt src r3.2 4
  let r5 := readUInt src r4.2 4
  let r6 := readUInt src r5.2 4
  let r7 := readUInt src r6.2 4
  let r8 := readUInt src r7.2 4
  let rf0 := readUInt src r8.2 4
  let rf1 := readUInt src rf0.2 4
  let rf2 := readUInt src rf1.2 4
  let rf3 := readUInt src rf2.2 4
  let rf4 := readUInt src rf3.2 4
  let rf5 := readUInt src rf4.2 4
  ({ version := r0.1, objectDataPos := r1.1, blindObjectDataPos := r2.1,
     lightgridPos := r3.1, collisionDataPos := r4.1,
     particleBlockerDataPos := r5.1, renderDataPos := r6.1,
     packerType := r7.1, packerVersion := r8.1,
     future := (rf0.1, rf1.1, rf2.1, rf3.1, rf4.1, rf5.1) }, rf5.2)

/-- Embedding of `worldFile.Seek(int64(off), io.SeekStart)`: for the
non-negative offsets the program passes, the system call always succeeds
(also past end of file) and sets the position to exactly `off`; the
`err != nil` branches in the source are unreachable. -/
def seekAbsolute (off : Nat) : Nat := off

/-- One event per `fmt.Println` / `fmt.Printf` executed while decoding. -/
inductive Event where
  /-- `fmt.Println(worldHeader)` (line 339). -/
  | headerLine (h : HEADER)
  /-- a `"Parsing <section> @ <offset>"` banner, by section index 0-5. -/
  | sectionBanner (idx off : Nat)
  /-- a printed numeric count or size value. -/
  | countLine (n : Nat)
  /-- `"Property Count ( <type> ): <n>"` (line 357). -/
  | propCountLine (objType : List Nat) (n : Nat)
  /-- `fmt.Println(property)` (line 380). -/
  | propertyLine (p : PROPERTY)
deriving DecidableEq

/-- The output the world-object loop produces for one object: the property
count line (printed before the inner loop), then each decoded property in
order. -/
def objectTrace (o : WORLDOBJECT) : List Event :=
  Event.propCountLine o.objectType o.propertiesLen ::
    o.properties.map Event.propertyLine

/-- The output of the whole world-object loop: each object's output, in
decode order. -/
def objectsTrace : List WORLDOBJECT → List Event
  | [] => []
  | o :: os => objectTrace o ++ objectsTrace os

/-- Embedding of `main` (`src/unnamed/part_000`, lines 313-430) minus the
file-opening wrapper: decode the header from position 0, then handle the
six sections in source order, and return the populated `WORLD` together
with the trace of everything printed while parsing.  Note the source's
final banner (line 423) prints `worldHeader.ParticleBlockerDataPos` even
though it seeks to `RenderDataPos`; the trace reproduces that. -/
def mainDecode (src : List Nat) : WORLD × List Event :=
  let rH := decodeHEADER src 0
  let h := rH.1
  let p0 := seekAbsolute h.objectDataPos
  let rWLen := readUInt src p0 4
  let rObjs := decodeWORLDOBJECTS src rWLen.2 rWLen.1
  let p1 := seekAbsolute h.blindObjectDataPos
  let rBlind := readUInt src p1 4
  let _p2 := seekAbsolute h.lightgridPos
  let p3 := seekAbsolute h.collisionDataPos
  let rPhys := readUInt src p3 4
  let p4 := seekAbsolute h.particleBlockerDataPos
  let rPB := readUInt src p4 4
  let _p5 := seekAbsolute h.renderDataPos
  let world : WORLD :=
    { (default : WORLD) with
        worldObjectsLen := rWLen.1, worldObjects := rObjs.1,
        blindObjectDataSize := rBlind.1,
        physicsDataLen := rPhys.1,
        particleBlockerDataLen := rPB.1 }
  (world,
    Event.headerLine h ::
    Event.sectionBanner 0 h.objectDataPos ::
    Event.countLine rWLen.1 ::
    (objectsTrace rObjs.1 ++
      (Event.sectionBanner 1 h.blindObjectDataPos ::
       Event.countLine rBlind.1 ::
       Event.sectionBanner 2 h.lightgridPos ::
       Event.sectionBanner 3 h.collisionDataPos ::
       Event.countLine rPhys.1 ::
       Event.sectionBanner 4 h.particleBlockerDataPos ::
       Event.countLine rPB.1 ::
       Event.sectionBanner 5 h.particleBlockerDataPos :: [])))

/-- WorldObjects section decoder as delegated to by the dispatcher: a `u32`
count, then that many world objects, stored in the document
(`src/unnamed/part_000`, lines 350-384). -/
def worldObjectsSection (src : List Nat) (pos : Nat) (w : WORLD) : WORLD × Nat :=
  let rLen := readUInt src pos 4
  let rObjs := decodeWORLDOBJECTS src rLen.2 rLen.1
  ({ w with worldObjectsLen := rLen.1, worldObjects := rObjs.1 }, rObjs.2)

/-- BlindObjects section decoder: only the `u32` size prefix is read and
stored (lines 392-393). -/
def blindObjectsSection (src : List Nat) (pos : Nat) (w : WORLD) : WORLD × Nat :=
  let r := readUInt src pos 4
  ({ w with blindObjectDataSize := r.1 }, r.2)

/-- LightGrid section decoder: nothing is read (the reads at lines 401-402
are commented out in the source); only the dispatcher's seek happens. -/
def lightGridSection (_src : List Nat) (pos : Nat) (w : WORLD) : WORLD × Nat :=
  (w, pos)

/-- Physics/Collision section decoder: only the `u32` length prefix is read
and stored (lines 410-411). -/
def physicsSection (src : List Nat) (pos : Nat) (w : WORLD) : WORLD × Nat :=
  let r := readUInt src pos 4
  ({ w with physicsDataLen := r.1 }, r.2)

/-- ParticleBlocker section decoder: only the `u32` length prefix is read
and stored (lines 419-420). -/
def particleBlockerSection (src : List Nat) (pos : Nat) (w : WORLD) : WORLD × Nat :=
  let r := readUInt src pos 4
  ({ w with particleBlockerDataLen := r.1 }, r.2)

/-- RenderData section decoder: nothing is read (line 429 is commented
out); only the dispatcher's seek happens. -/
def renderDataSection (_src : List Nat) (pos : Nat) (w : WORLD) : WORLD × Nat :=
  (w, pos)

/-- Modelled from the spec: the six stored section offsets, in dispatch
order WorldObjects, BlindObjects, LightGrid, Physics/Collision,
ParticleBlocker, RenderData. -/
def sectionOffsets (h : HEADER) : List Nat :=
  [h.objectDataPos, h.blindObjectDataPos, h.lightgridPos,
   h.collisionDataPos, h.particleBlockerDataPos, h.renderDataPos]

/-- Modelled from the spec: the matching section decoder for each of the
six offsets, in the same order. -/
def sectionDecoders : List (List Nat → Nat → WORLD → WORLD × Nat) :=
  [worldObjectsSection, blindObjectsSection, lightGridSection,
   physicsSection, particleBlockerSection, renderDataSection]

/-- Modelled from the spec: the Section Dispatcher decodes the header as a
fixed field sequence from position 0, then, for each of the six section
offsets in order, performs an absolute seek to the stored offset and runs
the matching section decoder, threading the world document through. -/
def dispatch (src : List Nat) : WORLD :=
  let h := (decodeHEADER src 0).1
  (List.foldl
    (fun w od => (od.2 src (seekAbsolute od.1) w).1)
    default
    ((sectionOffsets h).zip sectionDecoders))

/-- Position reached after the name of a property record: the tag byte
starts here. -/
def propTagPos (src : List Nat) (pos : Nat) : Nat :=
  (readLithSTRING src pos).2

/-- The type-tag value of the property record starting at `pos`. -/
def propTag (src : List Nat) (pos : Nat) : Nat :=
  (readUInt src (propTagPos src pos) 1).1

/-- Position of the `PropertyFlags` field of the property record. -/
def propFlagsPos (src : List Nat) (pos : Nat) : Nat :=
  (readUInt src (propTagPos src pos) 1).2

/-- The `PropertyFlags` value of the property record starting at `pos`. -/
def propFlags (src : List Nat) (pos : Nat) : Nat :=
  (readUInt src (propFlagsPos src pos) 4).1

/-- Position of the `DataSize` field of the property record. -/
def propSizePos (src : List Nat) (pos : Nat) : Nat :=
  (readUInt src (propFlagsPos src pos) 4).2

/-- The declared `DataSize` value of the property record starting at
`pos`. -/
def propDeclaredSize (src : List Nat) (pos : Nat) : Nat :=
  (readUInt src (propSizePos src pos) 2).1

/-- Position where the payload of the property record starts. -/
def propPayloadPos (src : List Nat) (pos : Nat) : Nat :=
  (readUInt src (propSizePos src pos) 2).2

/-- Number of payload bytes each fixed-size property variant occupies, a
function of the type tag alone. -/
def payloadWidth : Nat → Nat
  | 1 => 12
  | 2 => 12
  | 3 => 4
  | 5 => 1
  | 6 => 4
  | 7 => 16
  | _ => 0

theorem readRaw_pos_le (src : List Nat) (pos n : Nat) :
    pos ≤ (readRaw src pos n).2 := by
  unfold readRaw
  split <;> simp

theorem readUInt_pos_le (src : List Nat) (pos n : Nat) :
    pos ≤ (readUInt src pos n).2 :=
  readRaw_pos_le src pos n

theorem readLithSTRING_pos_le (src : List Nat) (pos : Nat) :
    pos ≤ (readLithSTRING src pos).2 :=
  le_trans (readUInt_pos_le src pos 2)
    (readRaw_pos_le src (readUInt src pos 2).2 (readUInt src pos 2).1)

theorem readGoBool_pos_le (src : List Nat) (pos : Nat) :
    pos ≤ (readGoBool src pos).2 :=
  readRaw_pos_le src pos 1

theorem readVEC3_pos_le (src : List Nat) (pos : Nat) :
    pos ≤ (readVEC3 src pos).2 :=
  readRaw_pos_le src pos 12

theorem readCOLOR_pos_le (src : List Nat) (pos : Nat) :
    pos ≤ (readCOLOR src pos).2 :=
  readRaw_pos_le src pos 12

theorem readQUATERNION_pos_le (src : List Nat) (pos : Nat) :
    pos ≤ (readQUATERNION src pos).2 :=
  readRaw_pos_le src pos 16

theorem decodePROPERTY_pos_le (src : List Nat) (pos : Nat) :
    pos ≤ (decodePROPERTY src pos).2 := by
  have h1 := readLithSTRING_pos_le src pos
  have h2 := readUInt_pos_le src (readLithSTRING src pos).2 1
  have h3 := readUInt_pos_le src (readUInt src (readLithSTRING src pos).2 1).2 4
  have h4 := readUInt_pos_le src
    (readUInt src (readUInt src (readLithSTRING src pos).2 1).2 4).2 2
  simp only [decodePROPERTY]
  split
  · refine le_trans ?_ (readLithSTRING_pos_le src _); omega
  split
  · refine le_trans ?_ (readVEC3_pos_le src _); omega
  split
  · refine le_trans ?_ (readCOLOR_pos_le src _); omega
  split
  · refine le_trans ?_ (readUInt_pos_le src _ 4); omega
  split
  · refine le_trans ?_ (readGoBool_pos_le src _); omega
  split
  · refine le_trans ?_ (readUInt_pos_le src _ 4); omega
  split
  · refine le_trans ?_ (readQUATERNION_pos_le src _); omega
  · omega

theorem decodePROPERTIES_pos_le (src : List Nat) :
    ∀ (n pos : Nat), pos ≤ (decodePROPERTIES src pos n).2 := by
  intro n
  induction n with
  | zero => intro pos; simp [decodePROPERTIES]
  | succ m ih =>
    intro pos
    simp only [decodePROPERTIES]
    have h1 := decodePROPERTY_pos_le src pos
    have h2 := ih (decodePROPERTY src pos).2
    omega

theorem decodeWORLDOBJECT_pos_le (src : List Nat) (pos : Nat) :
    pos ≤ (decodeWORLDOBJECT src pos).2 := by
  have h1 := readUInt_pos_le src pos 2
  have h2 := readLithSTRING_pos_le src (readUInt src pos 2).2
  have h3 := readUInt_pos_le src (readLithSTRING src (readUInt src pos 2).2).2 4
  have h4 := decodePROPERTIES_pos_le src
    (readUInt src (readLithSTRING src (readUInt src pos 2).2).2 4).1
    (readUInt src (readLithSTRING src (readUInt src pos 2).2).2 4).2
  simp only [decodeWORLDOBJECT]
  omega

theorem decodeWORLDOBJECTS_pos_le (src : List Nat) :
    ∀ (n pos : Nat), pos ≤ (decodeWORLDOBJECTS src pos n).2 := by
  intro n
  induction n with
  | zero => intro pos; simp [decodeWORLDOBJECTS]
  | succ m ih =>
    intro pos
    simp only [decodeWORLDOBJECTS]
    have h1 := decodeWORLDOBJECT_pos_le src pos
    have h2 := ih (decodeWORLDOBJECT src pos).2
    omega

theorem readRaw_success (src : List Nat) (pos n : Nat)
    (h : pos + n ≤ src.length) :
    readRaw src pos n = (some ((src.drop pos).take n), pos + n) := by
  unfold readRaw
  exact if_pos h

theorem readUInt_success (src : List Nat) (pos n : Nat)
    (h : pos + n ≤ src.length) :
    readUInt src pos n = (leVal ((src.drop pos).take n), pos + n) := by
  unfold readUInt
  rw [readRaw_success src pos n h]
  rfl

theorem readRaw_eof (src : List Nat) (pos n : Nat)
    (h : src.length ≤ pos) (hn : 0 < n) :
    readRaw src pos n = (none, pos) := by
  unfold readRaw
  rw [if_neg (by omega)]
  congr 1
  omega

theorem readUInt_eof (src : List Nat) (pos n : Nat)
    (h : src.length ≤ pos) (hn : 0 < n) :
    readUInt src pos n = (0, pos) := by
  unfold readUInt
  rw [readRaw_eof src pos n h hn]
  rfl

theorem readLithSTRING_eof (src : List Nat) (pos : Nat)
    (h : src.length ≤ pos) :
    readLithSTRING src pos = ([], pos) := by
  unfold readLithSTRING
  rw [readUInt_eof src pos 2 h (by omega)]
  simp only
  unfold readRaw
  by_cases hc : pos + 0 ≤ src.length
  · rw [if_pos hc]
    simp
  · rw [if_neg hc]
    simp

theorem readGoBool_eof (src : List Nat) (pos : Nat)
    (h : src.length ≤ pos) :
    readGoBool src pos = (false, pos) := by
  unfold readGoBool
  rw [readRaw_eof src pos 1 h (by omega)]
  rfl

theorem readVEC3_eof (src : List Nat) (pos : Nat)
    (h : src.length ≤ pos) :
    readVEC3 src pos = (default, pos) := by
  unfold readVEC3
  rw [readRaw_eof src pos 12 h (by omega)]
  rfl

theorem readCOLOR_eof (src : List Nat) (pos : Nat)
    (h : src.length ≤ pos) :
    readCOLOR src pos = (default, pos) := by
  unfold readCOLOR
  rw [readRaw_eof src pos 12 h (by omega)]
  rfl

theorem readQUATERNION_eof (src : List Nat) (pos : Nat)
    (h : src.length ≤ pos) :
    readQUATERNION src pos = (default, pos) := by
  unfold readQUATERNION
  rw [readRaw_eof src pos 16 h (by omega)]
  rfl

theorem decodePROPERTIES_length (src : List Nat) :
    ∀ (n pos : Nat), (decodePROPERTIES src pos n).1.length = n := by
  intro n
  induction n with
  | zero => intro pos; simp [decodePROPERTIES]
  | succ m ih =>
    intro pos
    simp only [decodePROPERTIES, List.length_cons]
    rw [ih]

theorem decodeWORLDOBJECTS_length (src : List Nat) :
    ∀ (n pos : Nat), (decodeWORLDOBJECTS src pos n).1.length = n := by
  intro n
  induction n with
  | zero => intro pos; simp [decodeWORLDOBJECTS]
  | succ m ih =>
    intro pos
    simp only [decodeWORLDOBJECTS, List.length_cons]
    rw [ih]

theorem decodeWORLDOBJECT_props_length (src : List Nat) (pos : Nat) :
    (decodeWORLDOBJECT src pos).1.properties.length =
      (decodeWORLDOBJECT src pos).1.propertiesLen := by
  simp only [decodeWORLDOBJECT]
  exact decodePROPERTIES_length src _ _

theorem decodeWORLDOBJECTS_mem (src : List Nat) :
    ∀ (n pos : Nat) (o : WORLDOBJECT),
      o ∈ (decodeWORLDOBJECTS src pos n).1 →
      o.properties.length = o.propertiesLen := by
  intro n
  induction n with
  | zero => intro pos o h; simp [decodeWORLDOBJECTS] at h
  | succ m ih =>
    intro pos o h
    simp only [decodeWORLDOBJECTS, List.mem_cons] at h
    rcases h with h | h
    · subst h
      exact decodeWORLDOBJECT_props_length src pos
    · exact ih _ o h

/-- C1: the decoder first decodes the Header as a fixed field sequence, and
then, for each of the six section offsets in the order WorldObjects,
BlindObjects, LightGrid, Physics/Collision, ParticleBlocker, RenderData,
performs an absolute seek to the stored offset and invokes the matching
section decoder, storing its result in the world document (first conjunct:
the decode of `mainDecode` equals the spec-shaped `dispatch`, which is the
header decode followed by the seek-then-decode fold over the six sections
in that order); and no component other than the dispatcher performs seeks:
every string, property, object and section decoder is forward-only — its
resulting position is never before its starting position (remaining
conjuncts). -/
theorem C1_section_dispatcher :
    (∀ src : List Nat, (mainDecode src).1 = dispatch src) ∧
    (∀ (src : List Nat) (pos : Nat), pos ≤ (readLithSTRING src pos).2) ∧
    (∀ (src : List Nat) (pos : Nat), pos ≤ (decodePROPERTY src pos).2) ∧
    (∀ (src : List Nat) (pos n : Nat), pos ≤ (decodePROPERTIES src pos n).2) ∧
    (∀ (src : List Nat) (pos : Nat), pos ≤ (decodeWORLDOBJECT src pos).2) ∧
    (∀ (src : List Nat) (pos n : Nat), pos ≤ (decodeWORLDOBJECTS src pos n).2) ∧
    (∀ (src : List Nat) (pos : Nat) (w : WORLD),
      pos ≤ (worldObjectsSection src pos w).2) ∧
    (∀ (src : List Nat) (pos : Nat) (w : WORLD),
      pos ≤ (blindObjectsSection src pos w).2) ∧
    (∀ (src : List Nat) (pos : Nat) (w : WORLD),
      pos ≤ (lightGridSection src pos w).2) ∧
    (∀ (src : List Nat) (pos : Nat) (w : WORLD),
      pos ≤ (physicsSection src pos w).2) ∧
    (∀ (src : List Nat) (pos : Nat) (w : WORLD),
      pos ≤ (particleBlockerSection src pos w).2) ∧
    (∀ (src : List Nat) (pos : Nat) (w : WORLD),
      pos ≤ (renderDataSection src pos w).2) := by
  refine ⟨fun _ => rfl, readLithSTRING_pos_le, decodePROPERTY_pos_le,
    fun src pos n => decodePROPERTIES_pos_le src n pos,
    decodeWORLDOBJECT_pos_le,
    fun src pos n => decodeWORLDOBJECTS_pos_le src n pos,
    ?_, ?_, ?_, ?_, ?_, ?_⟩
  · intro src pos w
    have h1 := readUInt_pos_le src pos 4
    have h2 := decodeWORLDOBJECTS_pos_le src (readUInt src pos 4).1
      (readUInt src pos 4).2
    simp only [worldObjectsSection]
    omega
  · intro src pos w
    exact readUInt_pos_le src pos 4
  · intro src pos w
    exact le_refl pos
  · intro src pos w
    exact readUInt_pos_le src pos 4
  · intro src pos w
    exact readUInt_pos_le src pos 4
  · intro src pos w
    exact le_refl pos

/-- C5: for every input, the decoded document's WorldObjects sequence has
exactly as many elements as the `u32` count prefix read at `objectDataPos`
(stored as `worldObjectsLen`), and each world object's properties sequence
has exactly as many elements as its `u32` property-count prefix; elements
are appended in file order by construction of the decode loops.  This holds
for every input, hence in particular for every valid one. -/
theorem C5_count_prefixes :
    ∀ src : List Nat,
      (mainDecode src).1.worldObjects.length =
        (mainDecode src).1.worldObjectsLen ∧
      (mainDecode src).1.worldObjectsLen =
        (readUInt src (seekAbsolute (decodeHEADER src 0).1.objectDataPos) 4).1 ∧
      ∀ o : WORLDOBJECT, o ∈ (mainDecode src).1.worldObjects →
        o.properties.length = o.propertiesLen := by
  intro src
  refine ⟨decodeWORLDOBJECTS_length src _ _, rfl, ?_⟩
  intro o ho
  exact decodeWORLDOBJECTS_mem src _ _ o ho

/-- A concrete 86-byte world file: `objectDataPos = 60`, and at offset 60 a
count of one world object, itself holding one `uint32` property named `A`
with value 7. -/
def exC5 : List Nat :=
  [1,0,0,0, 60,0,0,0] ++ List.replicate 52 0 ++
  [1,0,0,0, 0,0, 0,0, 1,0,0,0, 1,0, 65, 6, 0,0,0,0, 4,0, 7,0,0,0]

theorem C5_count_prefixes_witness :
    ((mainDecode exC5).1.worldObjects.head?.getD default ∈
      (mainDecode exC5).1.worldObjects) ∧
    ((mainDecode exC5).1.worldObjects.head?.getD default).properties.length =
      ((mainDecode exC5).1.worldObjects.head?.getD default).propertiesLen :=
  ⟨by decide, (C5_count_prefixes exC5).2.2 _ (by decide)⟩

/-- C10: after a complete decode, only the world-object list with its
count, the blind-object `u32` size prefix, the physics `u32` length prefix
and the particle-blocker `u32` length prefix of the world document are
populated from the file (last five conjuncts); every other field of the
document — world info, world tree, blind-object records, light grid,
polygon lists, trailers and all render data — remains at its zero value,
since for the LightGrid and RenderData sections only the seek is performed
and no bytes are read (first thirteen conjuncts). -/
theorem C10_only_prefixes_populated :
    ∀ src : List Nat,
      (mainDecode src).1.worldInfoStrLen = 0 ∧
      (mainDecode src).1.worldInfoStr = [] ∧
      (mainDecode src).1.worldExtentsMin = default ∧
      (mainDecode src).1.worldExtentsMax = default ∧
      (mainDecode src).1.worldOffset = default ∧
      (mainDecode src).1.worldTree = default ∧
      (mainDecode src).1.blindObjectsData = [] ∧
      (mainDecode src).1.lightGrid = default ∧
      (mainDecode src).1.polies = [] ∧
      (mainDecode src).1.zero = 0 ∧
      (mainDecode src).1.particleBlockers = [] ∧
      (mainDecode src).1.zero2 = 0 ∧
      (mainDecode src).1.renderData = default ∧
      (mainDecode src).1.worldObjectsLen =
        (readUInt src (seekAbsolute (decodeHEADER src 0).1.objectDataPos) 4).1 ∧
      (mainDecode src).1.worldObjects =
        (decodeWORLDOBJECTS src
          (readUInt src (seekAbsolute (decodeHEADER src 0).1.objectDataPos) 4).2
          (readUInt src (seekAbsolute (decodeHEADER src 0).1.objectDataPos) 4).1).1 ∧
      (mainDecode src).1.blindObjectDataSize =
        (readUInt src (seekAbsolute (decodeHEADER src 0).1.blindObjectDataPos) 4).1 ∧
      (mainDecode src).1.physicsDataLen =
        (readUInt src (seekAbsolute (decodeHEADER src 0).1.collisionDataPos) 4).1 ∧
      (mainDecode src).1.particleBlockerDataLen =
        (readUInt src
          (seekAbsolute (decodeHEADER src 0).1.particleBlockerDataPos) 4).1 :=
  fun _ => ⟨rfl, rfl, rfl, rfl, rfl, rfl, rfl, rfl, rfl, rfl, rfl, rfl, rfl,
    rfl, rfl, rfl, rfl, rfl⟩

/-- A concrete 76-byte world file truncated in the middle of its single
Property record: the file ends immediately after the `type_tag` byte (tag
6, a `uint32` property), before flags, size and payload. -/
def exC2 : List Nat :=
  [1,0,0,0, 60,0,0,0] ++ List.replicate 52 0 ++
  [1,0,0,0, 0,0, 0,0, 1,0,0,0, 1,0, 65, 6]

/-- C2 counterexample: `exC2` is truncated exactly after a Property
type-tag byte (third conjunct), yet decoding does not fail: it completes
and returns a world object whose property has every field after the tag
silently zero-filled — `propertyFlags`, `dataSize` and the payload all keep
their zero values, refuting both halves of the claim (the code discards
every `binary.Read` error, so nothing is bounds-checked in a way that stops
the decode). -/
theorem C2_cex :
    (mainDecode exC2).1.worldObjects =
      [{ objectSize := 0, objectType := [], propertiesLen := 1,
         properties := [{ (default : PROPERTY) with
           name := [65], dataTypeFlag := 6 }] }] ∧
    (mainDecode exC2).1.worldObjectsLen = 1 ∧
    propFlagsPos exC2 72 = exC2.length := by decide

/-- C2 (amended): for a property record truncated immediately after its
type-tag byte (the flags field would start exactly at end of file),
decoding does not fail: every remaining field of the decoded property keeps
its zero value and the final position is the end of the source. -/
theorem C2_truncated_zero_fill :
    ∀ (src : List Nat) (pos : Nat),
      src.length = propFlagsPos src pos →
      (decodePROPERTY src pos).1.propertyFlags = 0 ∧
      (decodePROPERTY src pos).1.dataSize = 0 ∧
      (decodePROPERTY src pos).1.dataString = [] ∧
      (decodePROPERTY src pos).1.dataVEC3 = default ∧
      (decodePROPERTY src pos).1.dataCOLOR = default ∧
      (decodePROPERTY src pos).1.dataFloat = 0 ∧
      (decodePROPERTY src pos).1.dataBool = false ∧
      (decodePROPERTY src pos).1.dataUint32 = 0 ∧
      (decodePROPERTY src pos).1.dataQuaternion = default ∧
      (decodePROPERTY src pos).2 = src.length := by
  intro src pos h
  simp only [propFlagsPos, propTagPos] at h
  have hF := readUInt_eof src (readUInt src (readLithSTRING src pos).2 1).2 4
    (le_of_eq h) (by omega)
  have hS := readUInt_eof src (readUInt src (readLithSTRING src pos).2 1).2 2
    (le_of_eq h) (by omega)
  have hle : src.length ≤ (readUInt src (readLithSTRING src pos).2 1).2 :=
    le_of_eq h
  simp only [decodePROPERTY, hF, hS]
  split
  · rw [readLithSTRING_eof src _ hle]
    exact ⟨rfl, rfl, rfl, rfl, rfl, rfl, rfl, rfl, rfl, h.symm⟩
  split
  · rw [readVEC3_eof src _ hle]
    exact ⟨rfl, rfl, rfl, rfl, rfl, rfl, rfl, rfl, rfl, h.symm⟩
  split
  · rw [readCOLOR_eof src _ hle]
    exact ⟨rfl, rfl, rfl, rfl, rfl, rfl, rfl, rfl, rfl, h.symm⟩
  split
  · exact ⟨rfl, rfl, rfl, rfl, rfl, rfl, rfl, rfl, rfl, h.symm⟩
  split
  · rw [readGoBool_eof src _ hle]
    exact ⟨rfl, rfl, rfl, rfl, rfl, rfl, rfl, rfl, rfl, h.symm⟩
  split
  · exact ⟨rfl, rfl, rfl, rfl, rfl, rfl, rfl, rfl, rfl, h.symm⟩
  split
  · rw [readQUATERNION_eof src _ hle]
    exact ⟨rfl, rfl, rfl, rfl, rfl, rfl, rfl, rfl, rfl, h.symm⟩
  · exact ⟨rfl, rfl, rfl, rfl, rfl, rfl, rfl, rfl, rfl, h.symm⟩

theorem C2_truncated_zero_fill_witness :
    ([1, 0, 65, 6] : List Nat).length = propFlagsPos [1, 0, 65, 6] 0 ∧
    (decodePROPERTY [1, 0, 65, 6] 0).1.propertyFlags = 0 ∧
    (decodePROPERTY [1, 0, 65, 6] 0).2 = ([1, 0, 65, 6] : List Nat).length :=
  ⟨by decide, (C2_truncated_zero_fill [1, 0, 65, 6] 0 (by decide)).1,
    (C2_truncated_zero_fill [1, 0, 65, 6] 0 (by decide)).2.2.2.2.2.2.2.2.2⟩

/-- A concrete 92-byte world file with one world object holding two
properties: the first has the unknown type tag 4, the second is a valid
bool property named `B` with value true. -/
def exC3 : List Nat :=
  [1,0,0,0, 60,0,0,0] ++ List.replicate 52 0 ++
  [1,0,0,0, 0,0, 0,0, 2,0,0,0,
   0,0, 4, 170,170,170,170, 2,0,
   1,0, 66, 5, 0,0,0,0, 1,0, 1]

/-- C3 counterexample: the first property of `exC3` has type tag 4, which
is not in the handled set, yet decoding does not fail: the record is kept
with no payload, and the decoder continues with the stream — the second
property (tag 5, bool) is decoded correctly right after it, refuting both
the failure and the no-continuation parts of the claim (the Go `switch` has
no `default` arm). -/
theorem C3_cex :
    (mainDecode exC3).1.worldObjects =
      [{ objectSize := 0, objectType := [], propertiesLen := 2,
         properties :=
           [{ (default : PROPERTY) with
                name := [], dataTypeFlag := 4,
                propertyFlags := 2863311530, dataSize := 2 },
            { (default : PROPERTY) with
                name := [66], dataTypeFlag := 5,
                dataSize := 1, dataBool := true }] }] := by decide

/-- C3 (amended): for a property record whose type tag is not in
{0,1,2,3,5,6,7}, the decoder reads name, tag, flags and declared size,
consumes no payload bytes (the final position is exactly the payload start)
and does not fail: the property is returned with every payload variant at
its zero value, and decoding of the stream continues from there. -/
theorem C3_unknown_tag_skipped :
    ∀ (src : List Nat) (pos : Nat),
      propTag src pos ∉ ([0, 1, 2, 3, 5, 6, 7] : List Nat) →
      (decodePROPERTY src pos).1 =
        { (default : PROPERTY) with
            name := (readLithSTRING src pos).1,
            dataTypeFlag := propTag src pos,
            propertyFlags := propFlags src pos,
            dataSize := propDeclaredSize src pos } ∧
      (decodePROPERTY src pos).2 = propPayloadPos src pos := by
  intro src pos h
  simp only [List.mem_cons, List.not_mem_nil, or_false] at h
  push_neg at h
  obtain ⟨h0, h1, h2, h3, h5, h6, h7⟩ := h
  simp only [propTag, propTagPos] at h0 h1 h2 h3 h5 h6 h7
  simp only [decodePROPERTY]
  rw [if_neg h0, if_neg h1, if_neg h2, if_neg h3, if_neg h5, if_neg h6,
    if_neg h7]
  exact ⟨rfl, rfl⟩

theorem C3_unknown_tag_skipped_witness :
    propTag [0, 0, 4] 0 ∉ ([0, 1, 2, 3, 5, 6, 7] : List Nat) ∧
    (decodePROPERTY [0, 0, 4] 0).2 = propPayloadPos [0, 0, 4] 0 :=
  ⟨by decide, (C3_unknown_tag_skipped [0, 0, 4] 0 (by decide)).2⟩

/-- A concrete 60-byte file consisting of the header alone, whose
`objectDataPos` (61) is one past the file length. -/
def exC4 : List Nat :=
  [1,0,0,0, 61,0,0,0] ++ List.replicate 52 0

/-- C4 counterexample: `exC4` has `objectDataPos` equal to file length + 1,
yet decoding does not fail: `os.File.Seek` with a non-negative offset
succeeds even past end of file (the embedded seek is total), the subsequent
count read hits end of file, its error is discarded, and the WorldObjects
section is decoded as count 0 with an empty list — no `InvalidOffset`
failure occurs. -/
theorem C4_cex :
    exC4.length = 60 ∧
    (decodeHEADER exC4 0).1.objectDataPos = exC4.length + 1 ∧
    (mainDecode exC4).1.worldObjectsLen = 0 ∧
    (mainDecode exC4).1.worldObjects = [] := by decide

/-- C4 (amended): for a section offset at or beyond the end of the byte
source, the seek succeeds (position is set to the offset) and the section
is decoded from end of file with every read error discarded: the
WorldObjects section stores count 0 and an empty object list, and any `u32`
prefix read at such an offset yields 0 — no failure is reported before or
during the section decode. -/
theorem C4_seek_past_eof_decodes_empty :
    ∀ (src : List Nat) (off : Nat) (w : WORLD),
      src.length ≤ off →
      worldObjectsSection src (seekAbsolute off) w =
        ({ w with worldObjectsLen := 0, worldObjects := [] }, off) ∧
      readUInt src (seekAbsolute off) 4 = (0, off) := by
  intro src off w h
  have h4 := readUInt_eof src off 4 h (by omega)
  constructor
  · simp only [worldObjectsSection, seekAbsolute, h4]
    rfl
  · exact h4

theorem C4_seek_past_eof_decodes_empty_witness :
    (([] : List Nat).length ≤ 1) ∧
    worldObjectsSection [] (seekAbsolute 1) default =
      ({ (default : WORLD) with worldObjectsLen := 0, worldObjects := [] },
        1) :=
  ⟨by decide, (C4_seek_past_eof_decodes_empty [] 1 default (by decide)).1⟩

/-- C7 counterexample: a string record whose `u16` length prefix (5)
exceeds the two remaining bytes does not fail with an end-of-file error:
`readLithSTRING` discards the read error and returns the still
zero-initialised buffer, i.e. five NUL bytes, while the position is moved
to the end of the source — refuting the claim's failure clause. -/
theorem C7_cex :
    readLithSTRING [5, 0, 65, 66] 0 = ([0, 0, 0, 0, 0], 4) := by decide

/-- C7 (amended): the string decoder reads one little-endian `u16` length
and then exactly that many raw bytes, returned byte-for-byte with no
terminator handling (first conjunct); a length of 0 decodes to the empty
string without consuming further bytes (second conjunct); but when fewer
than `length` bytes remain the decode does not fail: it returns `length`
NUL bytes (the zero-initialised buffer) and consumes the remaining bytes
(third conjunct). -/
theorem C7_readLithSTRING_behaviour :
    ∀ (src : List Nat) (pos : Nat),
      ((readUInt src pos 2).2 + (readUInt src pos 2).1 ≤ src.length →
        readLithSTRING src pos =
          ((src.drop (readUInt src pos 2).2).take (readUInt src pos 2).1,
            (readUInt src pos 2).2 + (readUInt src pos 2).1)) ∧
      ((readUInt src pos 2).1 = 0 →
        readLithSTRING src pos = ([], (readUInt src pos 2).2)) ∧
      (src.length < (readUInt src pos 2).2 + (readUInt src pos 2).1 →
        readLithSTRING src pos =
          (List.replicate (readUInt src pos 2).1 0,
            max (readUInt src pos 2).2 src.length)) := by
  intro src pos
  refine ⟨?_, ?_, ?_⟩
  · intro h
    simp only [readLithSTRING]
    rw [readRaw_success src _ _ h]
    rfl
  · intro h
    simp only [readLithSTRING, h]
    unfold readRaw
    by_cases hc : (readUInt src pos 2).2 + 0 ≤ src.length
    · rw [if_pos hc]
      simp
    · rw [if_neg hc]
      simp
  · intro h
    simp only [readLithSTRING]
    unfold readRaw
    rw [if_neg (by omega)]
    simp only [Option.getD_none]
    refine congrArg _ ?_
    omega

theorem C7_readLithSTRING_behaviour_witness :
    ((readUInt [3, 0, 65, 0, 66] 0 2).2 + (readUInt [3, 0, 65, 0, 66] 0 2).1
      ≤ ([3, 0, 65, 0, 66] : List Nat).length) ∧
    readLithSTRING [3, 0, 65, 0, 66] 0 = ([65, 0, 66], 5) :=
  ⟨by decide, by
    rw [(C7_readLithSTRING_behaviour [3, 0, 65, 0, 66] 0).1 (by decide)]
    decide⟩

/-- C8 counterexample: decoding the header from the start of a 60-byte file
consumes all 60 bytes, not 36: fifteen `u32` fields occupy 15 × 4 = 60
bytes. -/
theorem C8_cex :
    (List.replicate 60 7 : List Nat).length = 60 ∧
    (decodeHEADER (List.replicate 60 7) 0).2 = 60 ∧
    (decodeHEADER (List.replicate 60 7) 0).2 ≠ 36 := by decide

/-- C8 (amended): decoding the header from the start of the file reads, in
little-endian order, exactly the fixed field sequence version,
objectDataPos, blindObjectDataPos, lightgridPos, collisionDataPos,
particleBlockerDataPos, renderDataPos, packerType, packerVersion, then six
reserved `u32` values (fifteen `u32` fields at consecutive 4-byte offsets),
and this header occupies 60 bytes of the file. -/
theorem C8_header_layout :
    ∀ src : List Nat, 60 ≤ src.length →
      decodeHEADER src 0 =
        ({ version := leVal ((src.drop 0).take 4),
           objectDataPos := leVal ((src.drop 4).take 4),
           blindObjectDataPos := leVal ((src.drop 8).take 4),
           lightgridPos := leVal ((src.drop 12).take 4),
           collisionDataPos := leVal ((src.drop 16).take 4),
           particleBlockerDataPos := leVal ((src.drop 20).take 4),
           renderDataPos := leVal ((src.drop 24).take 4),
           packerType := leVal ((src.drop 28).take 4),
           packerVersion := leVal ((src.drop 32).take 4),
           future := (leVal ((src.drop 36).take 4),
             leVal ((src.drop 40).take 4), leVal ((src.drop 44).take 4),
             leVal ((src.drop 48).take 4), leVal ((src.drop 52).take 4),
             leVal ((src.drop 56).take 4)) }, 60) := by
  intro src h
  have e0 : readUInt src 0 4 = (leVal ((src.drop 0).take 4), 4) := by
    rw [readUInt_success src 0 4 (by omega)]
  have e4 : readUInt src 4 4 = (leVal ((src.drop 4).take 4), 8) := by
    rw [readUInt_success src 4 4 (by omega)]
  have e8 : readUInt src 8 4 = (leVal ((src.drop 8).take 4), 12) := by
    rw [readUInt_success src 8 4 (by omega)]
  have e12 : readUInt src 12 4 = (leVal ((src.drop 12).take 4), 16) := by
    rw [readUInt_success src 12 4 (by omega)]
  have e16 : readUInt src 16 4 = (leVal ((src.drop 16).take 4), 20) := by
    rw [readUInt_success src 16 4 (by omega)]
  have e20 : readUInt src 20 4 = (leVal ((src.drop 20).take 4), 24) := by
    rw [readUInt_success src 20 4 (by omega)]
  have e24 : readUInt src 24 4 = (leVal ((src.drop 24).take 4), 28) := by
    rw [readUInt_success src 24 4 (by omega)]
  have e28 : readUInt src 28 4 = (leVal ((src.drop 28).take 4), 32) := by
    rw [readUInt_success src 28 4 (by omega)]
  have e32 : readUInt src 32 4 = (leVal ((src.drop 32).take 4), 36) := by
    rw [readUInt_success src 32 4 (by omega)]
  have e36 : readUInt src 36 4 = (leVal ((src.drop 36).take 4), 40) := by
    rw [readUInt_success src 36 4 (by omega)]
  have e40 : readUInt src 40 4 = (leVal ((src.drop 40).take 4), 44) := by
    rw [readUInt_success src 40 4 (by omega)]
  have e44 : readUInt src 44 4 = (leVal ((src.drop 44).take 4), 48) := by
    rw [readUInt_success src 44 4 (by omega)]
  have e48 : readUInt src 48 4 = (leVal ((src.drop 48).take 4), 52) := by
    rw [readUInt_success src 48 4 (by omega)]
  have e52 : readUInt src 52 4 = (leVal ((src.drop 52).take 4), 56) := by
    rw [readUInt_success src 52 4 (by omega)]
  have e56 : readUInt src 56 4 = (leVal ((src.drop 56).take 4), 60) := by
    rw [readUInt_success src 56 4 (by omega)]
  simp only [decodeHEADER, e0, e4, e8, e12, e16, e20, e24, e28, e32, e36,
    e40, e44, e48, e52, e56]

theorem C8_header_layout_witness :
    (60 ≤ (List.range 60).length) ∧
    (decodeHEADER (List.range 60) 0).2 = 60 :=
  ⟨by decide, by rw [C8_header_layout (List.range 60) (by decide)]⟩

theorem mem_objectsTrace (e : Event) :
    ∀ (l : List WORLDOBJECT) (o : WORLDOBJECT),
      o ∈ l → e ∈ objectTrace o → e ∈ objectsTrace l := by
  intro l
  induction l with
  | nil => intro o h _; simp at h
  | cons a as ih =>
    intro o h he
    simp only [objectsTrace, List.mem_append]
    rcases List.mem_cons.mp h with h | h
    · exact Or.inl (h ▸ he)
    · exact Or.inr (ih o h he)

/-- A concrete 86-byte world file with one world object holding one
`uint32` property named `A` with value 9. -/
def exC9 : List Nat :=
  [1,0,0,0, 60,0,0,0] ++ List.replicate 52 0 ++
  [1,0,0,0, 0,0, 0,0, 1,0,0,0, 1,0, 65, 6, 0,0,0,0, 4,0, 9,0,0,0]

/-- C9 counterexample: decoding `exC9` produces a non-empty output trace
that echoes decoded values while parsing — the decoded header and the
decoded `uint32` property are both printed — refuting the claim that the
decode performs no printing and echoes no decoded value. -/
theorem C9_cex :
    (mainDecode exC9).2 ≠ [] ∧
    Event.headerLine (decodeHEADER exC9 0).1 ∈ (mainDecode exC9).2 ∧
    Event.propertyLine { (default : PROPERTY) with
        name := [65], dataTypeFlag := 6, dataSize := 4, dataUint32 := 9 } ∈
      (mainDecode exC9).2 := by decide

/-- C9 (amended): decoding is print-as-you-parse: for every input the
output trace is non-empty, it echoes the decoded header, and every decoded
property of every decoded world object is echoed to the output during
parsing (along with section banners and count lines). -/
theorem C9_print_as_you_parse :
    ∀ src : List Nat,
      (mainDecode src).2 ≠ [] ∧
      Event.headerLine (decodeHEADER src 0).1 ∈ (mainDecode src).2 ∧
      ∀ o ∈ (mainDecode src).1.worldObjects, ∀ p ∈ o.properties,
        Event.propertyLine p ∈ (mainDecode src).2 := by
  intro src
  refine ⟨List.cons_ne_nil _ _, List.mem_cons_self _ _, ?_⟩
  intro o ho p hp
  have h1 : Event.propertyLine p ∈ objectTrace o := by
    simp only [objectTrace, List.mem_cons]
    exact Or.inr (List.mem_map_of_mem _ hp)
  have h2 : Event.propertyLine p ∈
      objectsTrace (mainDecode src).1.worldObjects :=
    mem_objectsTrace _ _ o ho h1
  exact List.mem_cons_of_mem _ (List.mem_cons_of_mem _
    (List.mem_cons_of_mem _ (List.mem_append_left _ h2)))

theorem C9_print_as_you_parse_witness :
    Event.propertyLine { (default : PROPERTY) with
        name := [65], dataTypeFlag := 6, dataSize := 4, dataUint32 := 7 } ∈
      (mainDecode exC5).2 :=
  (C9_print_as_you_parse exC5).2.2
    ((mainDecode exC5).1.worldObjects.head?.getD default) (by decide)
    { (default : PROPERTY) with
        name := [65], dataTypeFlag := 6, dataSize := 4, dataUint32 := 7 }
    (by decide)

theorem take_drop_set_ne (src : List Nat) (i a pos n : Nat)
    (h : i < pos ∨ pos + n ≤ i) :
    ((src.set i a).drop pos).take n = (src.drop pos).take n := by
  apply List.ext_getElem?
  intro j
  by_cases hj : j < n
  · rw [List.getElem?_take_of_lt hj, List.getElem?_take_of_lt hj,
      List.getElem?_drop, List.getElem?_drop,
      List.getElem?_set_ne (by omega)]
  · have h1 : (((src.set i a).drop pos).take n).length ≤ j := by
      simp [List.length_take, List.length_drop]
      omega
    have h2 : (((src).drop pos).take n).length ≤ j := by
      simp [List.length_take, List.length_drop]
      omega
    rw [List.getElem?_eq_none h1, List.getElem?_eq_none h2]

theorem readRaw_set_ne (src : List Nat) (i a pos n : Nat)
    (h : i < pos ∨ pos + n ≤ i) :
    readRaw (src.set i a) pos n = readRaw src pos n := by
  unfold readRaw
  rw [List.length_set, take_drop_set_ne src i a pos n h]

theorem readUInt_set_ne (src : List Nat) (i a pos n : Nat)
    (h : i < pos ∨ pos + n ≤ i) :
    readUInt (src.set i a) pos n = readUInt src pos n := by
  unfold readUInt
  rw [readRaw_set_ne src i a pos n h]

theorem readLithSTRING_set_lt (src : List Nat) (i a pos : Nat)
    (h : i < pos) :
    readLithSTRING (src.set i a) pos = readLithSTRING src pos := by
  simp only [readLithSTRING]
  rw [readUInt_set_ne src i a pos 2 (Or.inl h)]
  rw [readRaw_set_ne src i a _ _
    (Or.inl (lt_of_lt_of_le h (readUInt_pos_le src pos 2)))]

theorem readGoBool_set_lt (src : List Nat) (i a pos : Nat) (h : i < pos) :
    readGoBool (src.set i a) pos = readGoBool src pos := by
  unfold readGoBool
  rw [readRaw_set_ne src i a pos 1 (Or.inl h)]

theorem readVEC3_set_lt (src : List Nat) (i a pos : Nat) (h : i < pos) :
    readVEC3 (src.set i a) pos = readVEC3 src pos := by
  unfold readVEC3
  rw [readRaw_set_ne src i a pos 12 (Or.inl h)]

theorem readCOLOR_set_lt (src : List Nat) (i a pos : Nat) (h : i < pos) :
    readCOLOR (src.set i a) pos = readCOLOR src pos := by
  unfold readCOLOR
  rw [readRaw_set_ne src i a pos 12 (Or.inl h)]

theorem readQUATERNION_set_lt (src : List Nat) (i a pos : Nat)
    (h : i < pos) :
    readQUATERNION (src.set i a) pos = readQUATERNION src pos := by
  unfold readQUATERNION
  rw [readRaw_set_ne src i a pos 16 (Or.inl h)]

theorem readRaw_snd_lt (src : List Nat) (pos n : Nat)
    (h : (readRaw src pos n).2 < src.length) :
    pos + n ≤ src.length ∧ (readRaw src pos n).2 = pos + n := by
  by_cases hc : pos + n ≤ src.length
  · exact ⟨hc, by unfold readRaw; rw [if_pos hc]⟩
  · exfalso
    unfold readRaw at h
    rw [if_neg hc] at h
    simp at h
    omega

theorem readUInt_snd_lt (src : List Nat) (pos n : Nat)
    (h : (readUInt src pos n).2 < src.length) :
    pos + n ≤ src.length ∧ (readUInt src pos n).2 = pos + n :=
  readRaw_snd_lt src pos n h

theorem readLithSTRING_snd_lt (src : List Nat) (pos : Nat)
    (h : (readLithSTRING src pos).2 < src.length) :
    pos + 2 ≤ src.length ∧
    (readLithSTRING src pos).2 = pos + 2 + (readUInt src pos 2).1 ∧
    pos + 2 + (readUInt src pos 2).1 ≤ src.length := by
  have hsnd : (readLithSTRING src pos).2 =
      (readRaw src (readUInt src pos 2).2 (readUInt src pos 2).1).2 := rfl
  rw [hsnd] at h
  obtain ⟨hc, he⟩ := readRaw_snd_lt src _ _ h
  have h1 : (readUInt src pos 2).2 < src.length := by
    have := readRaw_pos_le src (readUInt src pos 2).2 (readUInt src pos 2).1
    omega
  obtain ⟨hc2, he2⟩ := readUInt_snd_lt src pos 2 h1
  refine ⟨hc2, ?_, ?_⟩
  · rw [hsnd]
    omega
  · omega

/-- Replacing the two bytes of a property record's `DataSize` field by
arbitrary values changes nothing about the decode except the recorded
`dataSize` value itself: the payload decoded and the number of bytes
consumed are identical.  (The hypothesis says the size field lies within
the source.) -/
theorem decodePROPERTY_size_field_independent (src : List Nat)
    (pos a b : Nat) (hi : propSizePos src pos + 2 ≤ src.length) :
    (decodePROPERTY ((src.set (propSizePos src pos) a).set
        (propSizePos src pos + 1) b) pos).2 = (decodePROPERTY src pos).2 ∧
    (decodePROPERTY ((src.set (propSizePos src pos) a).set
        (propSizePos src pos + 1) b) pos).1 =
      { (decodePROPERTY src pos).1 with
          dataSize := propDeclaredSize ((src.set (propSizePos src pos) a).set
            (propSizePos src pos + 1) b) pos } := by
  simp only [propSizePos, propFlagsPos, propTagPos, propDeclaredSize] at hi ⊢
  have h3 : (readUInt src (readUInt src (readLithSTRING src pos).2 1).2 4).2 < src.length := by omega
  obtain ⟨hB2, hE2⟩ := readUInt_snd_lt src (readUInt src (readLithSTRING src pos).2 1).2 4 h3
  have h2 : (readUInt src (readLithSTRING src pos).2 1).2 < src.length := by omega
  obtain ⟨hB1, hE1⟩ := readUInt_snd_lt src (readLithSTRING src pos).2 1 h2
  have h1 : (readLithSTRING src pos).2 < src.length := by omega
  obtain ⟨hB0, hE0, hB0c⟩ := readLithSTRING_snd_lt src pos h1
  have e0snd : (readUInt src pos 2).2 = pos + 2 := by
    rw [readUInt_success src pos 2 hB0]
  generalize hgen : (readUInt src (readUInt src (readLithSTRING src pos).2 1).2 4).2 = i at hi h3 hE2 ⊢
  have hlen2 : ((src.set i a).set (i + 1) b).length = src.length := by simp
  have eName : readLithSTRING ((src.set i a).set (i + 1) b) pos = readLithSTRING src pos := by
    simp only [readLithSTRING]
    rw [readUInt_set_ne _ (i + 1) b pos 2 (Or.inr (by omega)),
      readUInt_set_ne src i a pos 2 (Or.inr (by omega))]
    rw [readRaw_set_ne _ (i + 1) b _ _ (Or.inr (by omega)),
      readRaw_set_ne src i a _ _ (Or.inr (by omega))]
  have eTag : readUInt ((src.set i a).set (i + 1) b) (readLithSTRING src pos).2 1 = readUInt src (readLithSTRING src pos).2 1 := by
    rw [readUInt_set_ne _ (i + 1) b (readLithSTRING src pos).2 1 (Or.inr (by omega)),
      readUInt_set_ne src i a (readLithSTRING src pos).2 1 (Or.inr (by omega))]
  have eFlags : readUInt ((src.set i a).set (i + 1) b) (readUInt src (readLithSTRING src pos).2 1).2 4 = readUInt src (readUInt src (readLithSTRING src pos).2 1).2 4 := by
    rw [readUInt_set_ne _ (i + 1) b (readUInt src (readLithSTRING src pos).2 1).2 4 (Or.inr (by omega)),
      readUInt_set_ne src i a (readUInt src (readLithSTRING src pos).2 1).2 4 (Or.inr (by omega))]
  have eS1snd : (readUInt ((src.set i a).set (i + 1) b) i 2).2 = i + 2 := by
    rw [readUInt_success ((src.set i a).set (i + 1) b) i 2 (by omega)]
  have eS2snd : (readUInt src i 2).2 = i + 2 := by
    rw [readUInt_success src i 2 (by omega)]
  have ePS : readLithSTRING ((src.set i a).set (i + 1) b) (i + 2) = readLithSTRING src (i + 2) := by
    rw [readLithSTRING_set_lt _ (i + 1) b _ (by omega),
      readLithSTRING_set_lt src i a _ (by omega)]
  have ePV : readVEC3 ((src.set i a).set (i + 1) b) (i + 2) = readVEC3 src (i + 2) := by
    rw [readVEC3_set_lt _ (i + 1) b _ (by omega),
      readVEC3_set_lt src i a _ (by omega)]
  have ePC : readCOLOR ((src.set i a).set (i + 1) b) (i + 2) = readCOLOR src (i + 2) := by
    rw [readCOLOR_set_lt _ (i + 1) b _ (by omega),
      readCOLOR_set_lt src i a _ (by omega)]
  have ePF : readUInt ((src.set i a).set (i + 1) b) (i + 2) 4 = readUInt src (i + 2) 4 := by
    rw [readUInt_set_ne _ (i + 1) b _ 4 (Or.inl (by omega)),
      readUInt_set_ne src i a _ 4 (Or.inl (by omega))]
  have ePB : readGoBool ((src.set i a).set (i + 1) b) (i + 2) = readGoBool src (i + 2) := by
    rw [readGoBool_set_lt _ (i + 1) b _ (by omega),
      readGoBool_set_lt src i a _ (by omega)]
  have ePQ : readQUATERNION ((src.set i a).set (i + 1) b) (i + 2) = readQUATERNION src (i + 2) := by
    rw [readQUATERNION_set_lt _ (i + 1) b _ (by omega),
      readQUATERNION_set_lt src i a _ (by omega)]
  simp only [decodePROPERTY]
  rw [eName, eTag, eFlags, hgen, eS1snd, eS2snd, ePS, ePV, ePC, ePF, ePB, ePQ]
  split
  · exact ⟨rfl, rfl⟩
  split
  · exact ⟨rfl, rfl⟩
  split
  · exact ⟨rfl, rfl⟩
  split
  · exact ⟨rfl, rfl⟩
  split
  · exact ⟨rfl, rfl⟩
  split
  · exact ⟨rfl, rfl⟩
  split
  · exact ⟨rfl, rfl⟩
  · exact ⟨rfl, rfl⟩

/-- C6: for every property record the decoder reads the name, tag, flags
and declared size and stores them as read (first conjunct, for every tag);
for a tag in {1,2,3,5,6,7} it then consumes exactly `payloadWidth tag`
payload bytes — 12 for Vec3, 12 for Color, 4 for f32, 1 for bool, 4 for
u32, 16 for Quaternion — a function of the tag alone (second conjunct,
when the payload is in bounds); for tag 0 it decodes a length-prefixed
string payload (third conjunct); each tag selects exactly its payload
variant (per-tag conjuncts); and the `declared_size` field never affects
which bytes are consumed or what payload is decoded — overwriting the two
size bytes with arbitrary values changes only the recorded `dataSize`, so
a declared-size mismatch cannot make the decode fail (final conjunct). -/
theorem C6_payload_selected_by_tag :
    ∀ (src : List Nat) (pos : Nat),
      ((decodePROPERTY src pos).1.name = (readLithSTRING src pos).1 ∧
        (decodePROPERTY src pos).1.dataTypeFlag = propTag src pos ∧
        (decodePROPERTY src pos).1.propertyFlags = propFlags src pos ∧
        (decodePROPERTY src pos).1.dataSize = propDeclaredSize src pos) ∧
      (propTag src pos ∈ ([1, 2, 3, 5, 6, 7] : List Nat) →
        propPayloadPos src pos + payloadWidth (propTag src pos) ≤ src.length →
        (decodePROPERTY src pos).2 =
          propPayloadPos src pos + payloadWidth (propTag src pos)) ∧
      (propTag src pos = 0 →
        (decodePROPERTY src pos).1.dataString =
          (readLithSTRING src (propPayloadPos src pos)).1 ∧
        (decodePROPERTY src pos).2 =
          (readLithSTRING src (propPayloadPos src pos)).2) ∧
      (propTag src pos = 1 →
        (decodePROPERTY src pos).1.dataVEC3 =
          (readVEC3 src (propPayloadPos src pos)).1) ∧
      (propTag src pos = 2 →
        (decodePROPERTY src pos).1.dataCOLOR =
          (readCOLOR src (propPayloadPos src pos)).1) ∧
      (propTag src pos = 3 →
        (decodePROPERTY src pos).1.dataFloat =
          (readUInt src (propPayloadPos src pos) 4).1) ∧
      (propTag src pos = 5 →
        (decodePROPERTY src pos).1.dataBool =
          (readGoBool src (propPayloadPos src pos)).1) ∧
      (propTag src pos = 6 →
        (decodePROPERTY src pos).1.dataUint32 =
          (readUInt src (propPayloadPos src pos) 4).1) ∧
      (propTag src pos = 7 →
        (decodePROPERTY src pos).1.dataQuaternion =
          (readQUATERNION src (propPayloadPos src pos)).1) ∧
      (∀ a b : Nat, propSizePos src pos + 2 ≤ src.length →
        (decodePROPERTY ((src.set (propSizePos src pos) a).set
            (propSizePos src pos + 1) b) pos).2 =
          (decodePROPERTY src pos).2 ∧
        (decodePROPERTY ((src.set (propSizePos src pos) a).set
            (propSizePos src pos + 1) b) pos).1 =
          { (decodePROPERTY src pos).1 with
              dataSize := propDeclaredSize
                ((src.set (propSizePos src pos) a).set
                  (propSizePos src pos + 1) b) pos }) := by
  intro src pos
  refine ⟨?_, ?_, ?_, ?_, ?_, ?_, ?_, ?_, ?_,
    fun a b h => decodePROPERTY_size_field_independent src pos a b h⟩
  · simp only [decodePROPERTY, propTag, propTagPos, propFlags, propFlagsPos,
      propDeclaredSize, propSizePos]
    split
    · exact ⟨rfl, rfl, rfl, rfl⟩
    split
    · exact ⟨rfl, rfl, rfl, rfl⟩
    split
    · exact ⟨rfl, rfl, rfl, rfl⟩
    split
    · exact ⟨rfl, rfl, rfl, rfl⟩
    split
    · exact ⟨rfl, rfl, rfl, rfl⟩
    split
    · exact ⟨rfl, rfl, rfl, rfl⟩
    split
    · exact ⟨rfl, rfl, rfl, rfl⟩
    · exact ⟨rfl, rfl, rfl, rfl⟩
  · intro hmem hlen
    simp only [List.mem_cons, List.not_mem_nil, or_false] at hmem
    rcases hmem with ht | ht | ht | ht | ht | ht
    · rw [ht] at hlen ⊢
      simp only [payloadWidth] at hlen ⊢
      simp only [propTag, propTagPos] at ht
      simp only [propPayloadPos, propSizePos, propFlagsPos, propTagPos]
        at hlen ⊢
      simp [decodePROPERTY, ht, readVEC3]
      rw [readRaw_success src _ 12 hlen]
    · rw [ht] at hlen ⊢
      simp only [payloadWidth] at hlen ⊢
      simp only [propTag, propTagPos] at ht
      simp only [propPayloadPos, propSizePos, propFlagsPos, propTagPos]
        at hlen ⊢
      simp [decodePROPERTY, ht, readCOLOR]
      rw [readRaw_success src _ 12 hlen]
    · rw [ht] at hlen ⊢
      simp only [payloadWidth] at hlen ⊢
      simp only [propTag, propTagPos] at ht
      simp only [propPayloadPos, propSizePos, propFlagsPos, propTagPos]
        at hlen ⊢
      simp [decodePROPERTY, ht]
      rw [readUInt_success src _ 4 hlen]
    · rw [ht] at hlen ⊢
      simp only [payloadWidth] at hlen ⊢
      simp only [propTag, propTagPos] at ht
      simp only [propPayloadPos, propSizePos, propFlagsPos, propTagPos]
        at hlen ⊢
      simp [decodePROPERTY, ht, readGoBool]
      rw [readRaw_success src _ 1 hlen]
    · rw [ht] at hlen ⊢
      simp only [payloadWidth] at hlen ⊢
      simp only [propTag, propTagPos] at ht
      simp only [propPayloadPos, propSizePos, propFlagsPos, propTagPos]
        at hlen ⊢
      simp [decodePROPERTY, ht]
      rw [readUInt_success src _ 4 hlen]
    · rw [ht] at hlen ⊢
      simp only [payloadWidth] at hlen ⊢
      simp only [propTag, propTagPos] at ht
      simp only [propPayloadPos, propSizePos, propFlagsPos, propTagPos]
        at hlen ⊢
      simp [decodePROPERTY, ht, readQUATERNION]
      rw [readRaw_success src _ 16 hlen]
  · intro ht
    simp only [propTag, propTagPos] at ht
    simp [decodePROPERTY, ht, propPayloadPos, propSizePos, propFlagsPos,
      propTagPos]
  · intro ht
    simp only [propTag, propTagPos] at ht
    simp [decodePROPERTY, ht, propPayloadPos, propSizePos, propFlagsPos,
      propTagPos]
  · intro ht
    simp only [propTag, propTagPos] at ht
    simp [decodePROPERTY, ht, propPayloadPos, propSizePos, propFlagsPos,
      propTagPos]
  · intro ht
    simp only [propTag, propTagPos] at ht
    simp [decodePROPERTY, ht, propPayloadPos, propSizePos, propFlagsPos,
      propTagPos]
  · intro ht
    simp only [propTag, propTagPos] at ht
    simp [decodePROPERTY, ht, propPayloadPos, propSizePos, propFlagsPos,
      propTagPos]
  · intro ht
    simp only [propTag, propTagPos] at ht
    simp [decodePROPERTY, ht, propPayloadPos, propSizePos, propFlagsPos,
      propTagPos]
  · intro ht
    simp only [propTag, propTagPos] at ht
    simp [decodePROPERTY, ht, propPayloadPos, propSizePos, propFlagsPos,
      propTagPos]

/-- A concrete 14-byte property record: name `A`, tag 6 (`uint32`),
flags 1, declared size 4, payload value 7. -/
def exC6 : List Nat := [1,0,65, 6, 1,0,0,0, 4,0, 7,0,0,0]

theorem C6_payload_selected_by_tag_witness :
    (propTag exC6 0 ∈ ([1, 2, 3, 5, 6, 7] : List Nat)) ∧
    (decodePROPERTY exC6 0).2 =
      propPayloadPos exC6 0 + payloadWidth (propTag exC6 0) ∧
    (decodePROPERTY exC6 0).1.dataUint32 =
      (readUInt exC6 (propPayloadPos exC6 0) 4).1 ∧
    (decodePROPERTY ((exC6.set (propSizePos exC6 0) 99).set
        (propSizePos exC6 0 + 1) 3) 0).2 = (decodePROPERTY exC6 0).2 :=
  ⟨by decide,
    (C6_payload_selected_by_tag exC6 0).2.1 (by decide) (by decide),
    (C6_payload_selected_by_tag exC6 0).2.2.2.2.2.2.2.1 (by decide),
    ((C6_payload_selected_by_tag exC6 0).2.2.2.2.2.2.2.2.2 99 3
      (by decide)).1⟩
